import Mathlib

/-!
Verification of the Aurae cell registry.

The registry `Cells` lives in `auraed/src/runtime/cells/cells.rs`: an in-memory
`HashMap<CellName, Cell>` behind a single `tokio::sync::Mutex`, with operations
`allocate`, `allocate_then`, `get`, `get_mut` and `free`.  The error taxonomy is
given in `crates/aurae-cells/src/error.rs`.  The `Cell` type itself (its
`allocate`/`free` state transitions) is not part of the provided sources; the
specification describes it as a state machine `Unallocated -> Allocated -> Freed`
with failable backend calls, and those transitions are modelled from the spec
below.

The `HashMap` is embedded as an association list with unique-key semantics
mirrored operation by operation (`contains_key`, `get`, `get_mut`, `entry(..)
.or_insert_with`, `remove`).  Every registry operation takes the cache as an
explicit state argument and returns its result together with the new cache;
this is the state of the map while the single mutex is held, so sequential
composition of these functions is exactly what any execution of the real code
performs (the lock serializes the critical sections).
-/

/-- Cell names are opaque, validated, hashable identifiers used as map keys;
embedded as strings. -/
abbrev CellName := String

/-- Modelled from the spec: the `Cell` lifecycle states of section 4.2
(`Unallocated -> Allocated -> Freed`, terminal at `Freed`).  The `Cell` type is
not among the provided sources. -/
inductive CellState
  | unallocated
  | allocated
  | freed
deriving DecidableEq, Repr

/-- Modelled from the spec: the `Cell` type is not among the provided sources.
A cell carries its name (used in its error values), its lifecycle state, and —
since the backing isolation-group calls are external and failable — two booleans
scripting whether the backend create and release calls succeed when attempted. -/
structure Cell where
  cell_name : CellName
  state : CellState
  allocSucceeds : Bool
  freeSucceeds : Bool
deriving DecidableEq, Repr

/-- The error taxonomy of `crates/aurae-cells/src/error.rs`, restricted to the
variants the registry code and the claims touch.  `cellUnallocated` is the
variant `cells.rs` pattern-matches as `CellsError::CellUnallocated`, the
auraed-local spelling of `error.rs`'s `CellNotAllocated` (whose display text is
"cell unallocated").  Backend payloads (`io::Error`, cgroup errors) are dropped:
no claim inspects them, and `matches!` in the code ignores payloads too. -/
inductive CellsError
  | cellExists (cell_name : CellName)
  | cellNotFound (cell_name : CellName)
  | cellUnallocated (cell_name : CellName)
  | failedToAllocateCell (cell_name : CellName)
  | abortedAllocateCell (cell_name : CellName)
  | failedToFreeCell (cell_name : CellName)
deriving DecidableEq, Repr

/-- `pub type Result<T> = std::result::Result<T, CellsError>` from `error.rs`. -/
abbrev Result (T : Type) := Except CellsError T

/-- The cache type `HashMap<CellName, Cell>`, embedded as an association list
(the registry never creates duplicate keys: insertion happens only after a
`contains_key` check). -/
abbrev Cache := List (CellName × Cell)

/-- `HashMap::get`: the value stored under the first (on valid states, only)
occurrence of the key. -/
def lookupCell : Cache → CellName → Option Cell
  | [], _ => none
  | e :: rest, n => if e.1 = n then some e.2 else lookupCell rest n

/-- `HashMap::contains_key`. -/
def containsKey (cache : Cache) (n : CellName) : Bool :=
  (lookupCell cache n).isSome

/-- `HashMap::remove`: drops every entry stored under the key (on valid states
there is at most one, matching the real map). -/
def removeKey : Cache → CellName → Cache
  | [], _ => []
  | e :: rest, n => if e.1 = n then removeKey rest n else e :: removeKey rest n

/-- Writing back through a `&mut` reference obtained from `HashMap::get_mut`:
the value under the key is replaced in place. -/
def updateKey : Cache → CellName → Cell → Cache
  | [], _, _ => []
  | e :: rest, n, c =>
      if e.1 = n then (e.1, c) :: updateKey rest n c else e :: updateKey rest n c

/-- `cache.entry(cell_name).or_insert_with(..)` after `contains_key` returned
false: a fresh entry is added. -/
def insertNew (cache : Cache) (n : CellName) (c : Cell) : Cache :=
  cache ++ [(n, c)]

/-- Number of entries stored under a key (the claims speak of "exactly one
entry for n"). -/
def countKey (cache : Cache) (n : CellName) : Nat :=
  List.countP (fun e => decide (e.1 = n)) cache

/-- Modelled from the spec: `Cell::allocate`, the `Unallocated -> Allocated`
transition (section 4.2).  It creates the backing isolation group; on backend
failure the cell remains `Unallocated` and the transition reports
`FailedToAllocateCell`; in any state other than `Unallocated` the operation
reports the `CellNotAllocated`-class signal.  Returns the transition result
together with the cell after the (possible) state change. -/
def Cell.allocate (c : Cell) : Result Unit × Cell :=
  match c.state with
  | .unallocated =>
      if c.allocSucceeds then (Except.ok (), { c with state := .allocated })
      else (Except.error (.failedToAllocateCell c.cell_name), c)
  | _ => (Except.error (.cellUnallocated c.cell_name), c)

/-- Modelled from the spec: `Cell::free`, the `Allocated -> Freed` transition
(section 4.2).  It releases the isolation group; on backend failure the cell
remains `Allocated` and the transition reports `FailedToFreeCell`; attempted
while `Unallocated` or `Freed` it reports the `CellNotAllocated`-class signal. -/
def Cell.free (c : Cell) : Result Unit × Cell :=
  match c.state with
  | .allocated =>
      if c.freeSucceeds then (Except.ok (), { c with state := .freed })
      else (Except.error (.failedToFreeCell c.cell_name), c)
  | _ => (Except.error (.cellUnallocated c.cell_name), c)

/-- `matches!(res, Err(CellsError::CellUnallocated { .. }))` from `cells.rs`. -/
def isCellUnallocatedErr {R : Type} : Result R → Bool
  | Except.error (.cellUnallocated _) => true
  | _ => false

/-- The file-level `fn allocate` of `cells.rs` (lines 112-129): if the key is
already present, fail with `CellExists` and leave the map untouched; otherwise
insert the cell converted from the blueprint, invoke the cell's own allocate
transition in place, and return a reference to the inserted cell.  Note that
the call site reads `cell.allocate();` — the transition's result is discarded. -/
def allocateFn (cache : Cache) (cell_name : CellName) (cell : Cell) :
    Result Cell × Cache :=
  if containsKey cache cell_name then
    (Except.error (.cellExists cell_name), cache)
  else
    let c := (Cell.allocate cell).2
    (Except.ok c, insertNew cache cell_name c)

/-- The file-level `fn get_mut` of `cells.rs` (lines 131-148): locate the cell,
run the caller-supplied operation on it with mutation access, write the mutated
cell back, and evict the entry when the operation's result is the
`CellUnallocated` signal. -/
def get_mutFn {R : Type} (cache : Cache) (cell_name : CellName)
    (f : Cell → Result R × Cell) : Result R × Cache :=
  match lookupCell cache cell_name with
  | some cell =>
      let res := (f cell).1
      let cache2 := updateKey cache cell_name (f cell).2
      if isCellUnallocatedErr res then (res, removeKey cache2 cell_name)
      else (res, cache2)
  | none => (Except.error (.cellNotFound cell_name), cache)

/-- `Cells::allocate` (lines 52-60): delegate to the file-level `allocate` and
throw the returned cell reference away. -/
def Cells.allocate (cache : Cache) (cell_name : CellName) (cell : Cell) :
    Result Unit × Cache :=
  let s := allocateFn cache cell_name cell
  match s.1 with
  | Except.error e => (Except.error e, s.2)
  | Except.ok _ => (Except.ok (), s.2)

/-- `Cells::allocate_then` (lines 63-75): delegate to the file-level `allocate`
and, on success, return the result of applying `f` to the freshly inserted
cell.  No eviction logic appears here. -/
def Cells.allocate_then {R : Type} (cache : Cache) (cell_name : CellName)
    (cell : Cell) (f : Cell → Result R) : Result R × Cache :=
  let s := allocateFn cache cell_name cell
  match s.1 with
  | Except.error e => (Except.error e, s.2)
  | Except.ok cellRef => (f cellRef, s.2)

/-- `Cells::get` (lines 77-91): locate the cell, apply the read-only operation,
and evict the entry when the operation's result is the `CellUnallocated`
signal. -/
def Cells.get {R : Type} (cache : Cache) (cell_name : CellName)
    (f : Cell → Result R) : Result R × Cache :=
  match lookupCell cache cell_name with
  | some cell =>
      let res := f cell
      if isCellUnallocatedErr res then (res, removeKey cache cell_name)
      else (res, cache)
  | none => (Except.error (.cellNotFound cell_name), cache)

/-- `Cells::get_mut` (lines 93-99): delegate to the file-level `get_mut`. -/
def Cells.get_mut {R : Type} (cache : Cache) (cell_name : CellName)
    (f : Cell → Result R × Cell) : Result R × Cache :=
  get_mutFn cache cell_name f

/-- `Cells::free` (lines 102-109): run the cell's free transition through the
file-level `get_mut`, propagating its error; then `cache.remove(cell_name)
.ok_or_else(CellNotFound)?`. -/
def Cells.free (cache : Cache) (cell_name : CellName) : Result Unit × Cache :=
  let s := get_mutFn cache cell_name (fun cell => Cell.free cell)
  match s.1 with
  | Except.error e => (Except.error e, s.2)
  | Except.ok _ =>
      if containsKey s.2 cell_name then (Except.ok (), removeKey s.2 cell_name)
      else (Except.error (.cellNotFound cell_name), s.2)

/-- Modelled from the spec: the registry's single mutex serializes the critical
sections of two concurrent `allocate` calls on the same name, so the possible
executions are exactly the two orders of the two calls. -/
inductive Schedule
  | firstSecond
  | secondFirst
deriving DecidableEq, Repr

/-- The two serialized executions of concurrent `allocate(n, b1)` and
`allocate(n, b2)`: results of the first and the second caller, and the final
cache. -/
def twoAllocates (sched : Schedule) (cache : Cache) (n : CellName)
    (b1 b2 : Cell) : Result Unit × Result Unit × Cache :=
  match sched with
  | .firstSecond =>
      let s1 := Cells.allocate cache n b1
      let s2 := Cells.allocate s1.2 n b2
      (s1.1, s2.1, s2.2)
  | .secondFirst =>
      let s1 := Cells.allocate cache n b2
      let s2 := Cells.allocate s1.2 n b1
      (s2.1, s1.1, s2.2)

/-! ### Map lemmas -/

theorem lookupCell_removeKey_self (cache : Cache) (n : CellName) :
    lookupCell (removeKey cache n) n = none := by
  induction cache with
  | nil => simp [removeKey, lookupCell]
  | cons e rest ih =>
      by_cases h : e.1 = n
      · simp [removeKey, h, ih]
      · simp [removeKey, h, lookupCell, ih]

theorem containsKey_removeKey_self (cache : Cache) (n : CellName) :
    containsKey (removeKey cache n) n = false := by
  simp [containsKey, lookupCell_removeKey_self]

theorem lookupCell_updateKey (cache : Cache) (n m : CellName) (c : Cell) :
    lookupCell (updateKey cache n c) m
      = if containsKey cache m = true ∧ n = m then some c else lookupCell cache m := by
  induction cache with
  | nil => simp [updateKey, lookupCell, containsKey]
  | cons e rest ih =>
      by_cases h : e.1 = n
      · by_cases h2 : n = m
        · simp [updateKey, h, lookupCell, h ▸ h2, containsKey, h2]
        · have h3 : ¬ e.1 = m := by
            intro hc; exact h2 (by rw [← h, hc])
          simp [updateKey, h, lookupCell, h3, ih, h2]
      · by_cases h2 : e.1 = m
        · have h3 : ¬ (n = m) := by
            intro hc; exact h (by rw [hc, h2])
          have h4 : ¬ (m = n) := fun hc => h3 hc.symm
          simp [updateKey, h, lookupCell, h2, containsKey, h3, h4]
        · simp [updateKey, h, lookupCell, h2, ih, containsKey]

theorem containsKey_updateKey (cache : Cache) (n m : CellName) (c : Cell) :
    containsKey (updateKey cache n c) m = containsKey cache m := by
  by_cases h : containsKey cache m = true
  · simp only [containsKey] at h ⊢
    rw [lookupCell_updateKey]
    by_cases h2 : n = m <;> simp [h, h2, containsKey]
  · simp only [containsKey] at h ⊢
    rw [lookupCell_updateKey]
    simp [containsKey, h]

theorem lookupCell_insertNew_self (cache : Cache) (n : CellName) (c : Cell)
    (h : containsKey cache n = false) :
    lookupCell (insertNew cache n c) n = some c := by
  induction cache with
  | nil => simp [insertNew, lookupCell]
  | cons e rest ih =>
      by_cases h2 : e.1 = n
      · simp [containsKey, lookupCell, h2] at h
      · simp only [containsKey, lookupCell, if_neg h2] at h
        simp only [insertNew, List.cons_append, lookupCell, if_neg h2]
        exact ih (by simpa [containsKey] using h)

theorem countKey_eq_zero (cache : Cache) (n : CellName)
    (h : containsKey cache n = false) : countKey cache n = 0 := by
  induction cache with
  | nil => simp [countKey]
  | cons e rest ih =>
      by_cases h2 : e.1 = n
      · simp [containsKey, lookupCell, h2] at h
      · simp only [containsKey, lookupCell, if_neg h2] at h
        simp only [countKey, List.countP_cons, decide_eq_true_eq, h2] at ih ⊢
        simp [ih (by simpa [containsKey] using h)]

theorem countKey_insertNew_self (cache : Cache) (n : CellName) (c : Cell)
    (h : containsKey cache n = false) :
    countKey (insertNew cache n c) n = 1 := by
  have h0 := countKey_eq_zero cache n h
  simp only [countKey, insertNew, List.countP_append, List.countP_cons,
    List.countP_nil] at h0 ⊢
  simp [h0]

deriving instance DecidableEq for Except

theorem containsKey_insertNew_self (cache : Cache) (n : CellName) (c : Cell)
    (h : containsKey cache n = false) :
    containsKey (insertNew cache n c) n = true := by
  simp [containsKey, lookupCell_insertNew_self cache n c h]

theorem containsKey_eq_false_iff (cache : Cache) (n : CellName) :
    containsKey cache n = false ↔ lookupCell cache n = none := by
  cases hx : lookupCell cache n <;> simp [containsKey, hx]

/-- Shape of a successful allocation: the map gains the blueprint's cell after
its allocate transition, whatever that transition's outcome was. -/
theorem allocate_shape_new (cache : Cache) (n : CellName) (b : Cell)
    (h : containsKey cache n = false) :
    Cells.allocate cache n b
      = (Except.ok (), insertNew cache n ((Cell.allocate b).2)) := by
  simp [Cells.allocate, allocateFn, h]

/-- Shape of a duplicate allocation: `CellExists`, map untouched. -/
theorem allocate_shape_dup (cache : Cache) (n : CellName) (b : Cell)
    (h : containsKey cache n = true) :
    Cells.allocate cache n b = (Except.error (.cellExists n), cache) := by
  simp [Cells.allocate, allocateFn, h]

/-- The result component of `get_mut` on a present key is the operation's
result, in both the evicting and the non-evicting branch. -/
theorem get_mutFn_fst {R : Type} (cache : Cache) (n : CellName)
    (f : Cell → Result R × Cell) (cell : Cell)
    (hl : lookupCell cache n = some cell) :
    (get_mutFn cache n f).1 = (f cell).1 := by
  by_cases hU : isCellUnallocatedErr (f cell).1 = true <;>
    simp [get_mutFn, hl, hU]

/-! ### Sample values for witnesses and counterexamples -/

/-- A well-behaved blueprint: an unallocated cell whose backend calls succeed. -/
def blueprintOk : Cell :=
  { cell_name := "web-1", state := .unallocated
    allocSucceeds := true, freeSucceeds := true }

/-- A blueprint whose backend isolation-group creation fails. -/
def blueprintBadAlloc : Cell :=
  { cell_name := "web-1", state := .unallocated
    allocSucceeds := false, freeSucceeds := true }

/-- An allocated cell whose backend calls succeed. -/
def allocatedCell : Cell :=
  { cell_name := "web-1", state := .allocated
    allocSucceeds := true, freeSucceeds := true }

/-- An allocated cell whose backend release call fails. -/
def stuckCell : Cell :=
  { cell_name := "web-1", state := .allocated
    allocSucceeds := true, freeSucceeds := false }

/-- A registry state holding a healthy allocated cell under `web-1`. -/
def cacheA : Cache := [("web-1", allocatedCell)]

/-- A registry state holding an unallocated (dead) cell under `web-1`. -/
def cacheU : Cache := [("web-1", blueprintOk)]

/-- A registry state holding a cell whose free transition will fail. -/
def cacheStuck : Cache := [("web-1", stuckCell)]

/-- A read-only operation reporting the `CellUnallocated` signal. -/
def opUnalloc : Cell → Result Unit :=
  fun c => Except.error (.cellUnallocated c.cell_name)

/-- A read-only operation that succeeds. -/
def opOk : Cell → Result Unit := fun _ => Except.ok ()

/-- A mutating operation reporting the `CellUnallocated` signal. -/
def opMutUnalloc : Cell → Result Unit × Cell :=
  fun c => (Except.error (.cellUnallocated c.cell_name), c)

/-- A mutating operation that succeeds after changing the cell's state. -/
def opMutOk : Cell → Result Unit × Cell :=
  fun c => (Except.ok (), { c with state := .freed })

/-! ### Claims -/

/-- C1: if `n` is already present, `allocate(n, b)` returns `CellExists` and
the map is unchanged; consequently allocating the same name twice without an
intervening `free` yields success then `CellExists`, and the map retains
exactly one entry for `n`. -/
theorem claim1_allocate_twice (cache : Cache) (n : CellName) (b b2 : Cell) :
    (containsKey cache n = true →
      Cells.allocate cache n b = (Except.error (.cellExists n), cache)) ∧
    (containsKey cache n = false →
      (Cells.allocate cache n b).1 = Except.ok () ∧
      Cells.allocate (Cells.allocate cache n b).2 n b2
        = (Except.error (.cellExists n), (Cells.allocate cache n b).2) ∧
      countKey (Cells.allocate cache n b).2 n = 1) := by
  constructor
  · intro h
    exact allocate_shape_dup cache n b h
  · intro h
    rw [allocate_shape_new cache n b h]
    refine ⟨rfl, ?_, ?_⟩
    · exact allocate_shape_dup _ n b2 (containsKey_insertNew_self cache n _ h)
    · exact countKey_insertNew_self cache n _ h

/-- Witness for C1 at concrete inputs: a duplicate allocation on a one-entry
registry, and a double allocation starting from the empty registry. -/
theorem claim1_allocate_twice_witness :
    (containsKey cacheA "web-1" = true ∧
      Cells.allocate cacheA "web-1" blueprintOk
        = (Except.error (.cellExists "web-1"), cacheA)) ∧
    (containsKey ([] : Cache) "web-1" = false ∧
      ((Cells.allocate ([] : Cache) "web-1" blueprintOk).1 = Except.ok () ∧
       Cells.allocate (Cells.allocate ([] : Cache) "web-1" blueprintOk).2
           "web-1" blueprintOk
         = (Except.error (.cellExists "web-1"),
            (Cells.allocate ([] : Cache) "web-1" blueprintOk).2) ∧
       countKey (Cells.allocate ([] : Cache) "web-1" blueprintOk).2 "web-1"
         = 1)) :=
  ⟨⟨by decide,
    (claim1_allocate_twice cacheA "web-1" blueprintOk blueprintOk).1 (by decide)⟩,
   ⟨by decide,
    (claim1_allocate_twice ([] : Cache) "web-1" blueprintOk blueprintOk).2
      (by decide)⟩⟩

/-- C4: `get`, `get_mut` and `free` on an absent name each return
`CellNotFound` with the map unchanged, and the operation function is never
invoked (the outcome does not depend on it at all). -/
theorem claim4_absent_name {R : Type} (cache : Cache) (n : CellName)
    (f f2 : Cell → Result R) (fm fm2 : Cell → Result R × Cell)
    (h : containsKey cache n = false) :
    Cells.get cache n f = (Except.error (.cellNotFound n), cache) ∧
    Cells.get_mut cache n fm = (Except.error (.cellNotFound n), cache) ∧
    Cells.free cache n = (Except.error (.cellNotFound n), cache) ∧
    Cells.get cache n f = Cells.get cache n f2 ∧
    Cells.get_mut cache n fm = Cells.get_mut cache n fm2 := by
  have hl : lookupCell cache n = none := (containsKey_eq_false_iff cache n).mp h
  refine ⟨?_, ?_, ?_, ?_, ?_⟩ <;>
    simp [Cells.get, Cells.get_mut, Cells.free, get_mutFn, hl]

/-- Witness for C4: `get`/`get_mut`/`free` on the name `ghost` against the
empty registry. -/
theorem claim4_absent_name_witness :
    containsKey ([] : Cache) "ghost" = false ∧
    (Cells.get ([] : Cache) "ghost" opOk
       = (Except.error (.cellNotFound "ghost"), ([] : Cache)) ∧
     Cells.get_mut ([] : Cache) "ghost" opMutOk
       = (Except.error (.cellNotFound "ghost"), ([] : Cache)) ∧
     Cells.free ([] : Cache) "ghost"
       = (Except.error (.cellNotFound "ghost"), ([] : Cache)) ∧
     Cells.get ([] : Cache) "ghost" opOk
       = Cells.get ([] : Cache) "ghost" opUnalloc ∧
     Cells.get_mut ([] : Cache) "ghost" opMutOk
       = Cells.get_mut ([] : Cache) "ghost" opMutUnalloc) :=
  ⟨by decide,
   claim4_absent_name ([] : Cache) "ghost" opOk opUnalloc opMutOk opMutUnalloc
     (by decide)⟩

/-- C3: after `free(n)` returns success the entry for `n` has been removed, so
a subsequent `get(n, _)` yields `CellNotFound`. -/
theorem claim3_free_removes_entry {R : Type} (cache : Cache) (n : CellName)
    (g : Cell → Result R) (h : (Cells.free cache n).1 = Except.ok ()) :
    containsKey (Cells.free cache n).2 n = false ∧
    (Cells.get (Cells.free cache n).2 n g).1
      = Except.error (.cellNotFound n) := by
  rcases hs : get_mutFn cache n (fun cell => Cell.free cell) with ⟨r, c1⟩
  simp only [Cells.free, hs] at h ⊢
  cases r with
  | error e => simp at h
  | ok v =>
      by_cases hc : containsKey c1 n = true
      · simp only [hc, if_true]
        constructor
        · exact containsKey_removeKey_self c1 n
        · simp [Cells.get, lookupCell_removeKey_self c1 n]
      · simp [hc] at h

/-- Witness for C3: free the healthy allocated cell, then look it up. -/
theorem claim3_free_removes_entry_witness :
    (Cells.free cacheA "web-1").1 = Except.ok () ∧
    (containsKey (Cells.free cacheA "web-1").2 "web-1" = false ∧
     (Cells.get (Cells.free cacheA "web-1").2 "web-1" opOk).1
       = Except.error (.cellNotFound "web-1")) :=
  ⟨by decide, claim3_free_removes_entry cacheA "web-1" opOk (by decide)⟩

/-- C9: when the cell's free transition run through `get_mut` succeeds, the
entry is still present afterwards, so the removal step inside `free` always
finds it and the `CellNotFound` error built at that step is unreachable:
`free` then returns success. -/
theorem claim9_free_remove_unreachable (cache : Cache) (n : CellName)
    (h : (get_mutFn cache n (fun cell => Cell.free cell)).1 = Except.ok ()) :
    containsKey (get_mutFn cache n (fun cell => Cell.free cell)).2 n = true ∧
    (Cells.free cache n).1 = Except.ok () := by
  cases hl : lookupCell cache n with
  | none =>
      rw [get_mutFn, hl] at h
      simp at h
  | some cell =>
      have hfst := get_mutFn_fst cache n (fun cell => Cell.free cell) cell hl
      rw [hfst] at h
      have hU : isCellUnallocatedErr ((Cell.free cell).1) = false := by
        rw [h]; rfl
      have hsnd : (get_mutFn cache n (fun cell => Cell.free cell)).2
          = updateKey cache n ((Cell.free cell).2) := by
        simp [get_mutFn, hl, hU]
      have hpres : containsKey
          (get_mutFn cache n (fun cell => Cell.free cell)).2 n = true := by
        rw [hsnd, containsKey_updateKey]
        simp [containsKey, hl]
      refine ⟨hpres, ?_⟩
      rcases hs : get_mutFn cache n (fun cell => Cell.free cell) with ⟨r, c1⟩
      have hr : r = Except.ok () := by rw [← h, ← hfst, hs]
      rw [hs] at hpres
      simp only at hpres
      simp only [Cells.free, hs, hr]
      simp [hpres]

/-- Witness for C9: the free transition of the healthy allocated cell
succeeds, the entry is still present for the removal step, and `free`
returns success. -/
theorem claim9_free_remove_unreachable_witness :
    (get_mutFn cacheA "web-1" (fun cell => Cell.free cell)).1
      = Except.ok () ∧
    (containsKey (get_mutFn cacheA "web-1" (fun cell => Cell.free cell)).2
        "web-1" = true ∧
     (Cells.free cacheA "web-1").1 = Except.ok ()) :=
  ⟨by decide, claim9_free_remove_unreachable cacheA "web-1" (by decide)⟩

/-- C2: on a present name, if the operation's result is the unallocated-signal
error, `get`/`get_mut` remove the entry and return that same error, so a
subsequent `get` yields `CellNotFound`; for any other result the entry remains
and the operation's result is returned unchanged. -/
theorem claim2_unalloc_eviction {R : Type} (cache : Cache) (n : CellName)
    (cell : Cell) (f g : Cell → Result R) (fm : Cell → Result R × Cell)
    (h : lookupCell cache n = some cell) :
    (isCellUnallocatedErr (f cell) = true →
      (Cells.get cache n f).1 = f cell ∧
      containsKey (Cells.get cache n f).2 n = false ∧
      (Cells.get (Cells.get cache n f).2 n g).1
        = Except.error (.cellNotFound n)) ∧
    (isCellUnallocatedErr (f cell) = false →
      (Cells.get cache n f).1 = f cell ∧
      (Cells.get cache n f).2 = cache) ∧
    (isCellUnallocatedErr (fm cell).1 = true →
      (Cells.get_mut cache n fm).1 = (fm cell).1 ∧
      containsKey (Cells.get_mut cache n fm).2 n = false ∧
      (Cells.get (Cells.get_mut cache n fm).2 n g).1
        = Except.error (.cellNotFound n)) ∧
    (isCellUnallocatedErr (fm cell).1 = false →
      (Cells.get_mut cache n fm).1 = (fm cell).1 ∧
      containsKey (Cells.get_mut cache n fm).2 n = true) := by
  refine ⟨?_, ?_, ?_, ?_⟩
  · intro hU
    refine ⟨?_, ?_, ?_⟩
    · simp [Cells.get, h, hU]
    · simp [Cells.get, h, hU, containsKey_removeKey_self]
    · simp [Cells.get, h, hU, lookupCell_removeKey_self]
  · intro hU
    simp [Cells.get, h, hU]
  · intro hU
    refine ⟨?_, ?_, ?_⟩
    · simp [Cells.get_mut, get_mutFn, h, hU]
    · simp [Cells.get_mut, get_mutFn, h, hU, containsKey_removeKey_self]
    · simp [Cells.get, Cells.get_mut, get_mutFn, h, hU,
        lookupCell_removeKey_self]
  · intro hU
    refine ⟨?_, ?_⟩
    · simp [Cells.get_mut, get_mutFn, h, hU]
    · simp only [Cells.get_mut, get_mutFn, h, hU, Bool.false_eq_true,
        if_false]
      rw [containsKey_updateKey]
      simp [containsKey, h]

/-- Witness for C2: the evicting branches exercised with operations that
report the unallocated signal on the allocated sample cell, and the
non-evicting branches with succeeding operations. -/
theorem claim2_unalloc_eviction_witness :
    lookupCell cacheA "web-1" = some allocatedCell ∧
    (isCellUnallocatedErr (opUnalloc allocatedCell) = true ∧
     ((Cells.get cacheA "web-1" opUnalloc).1 = opUnalloc allocatedCell ∧
      containsKey (Cells.get cacheA "web-1" opUnalloc).2 "web-1" = false ∧
      (Cells.get (Cells.get cacheA "web-1" opUnalloc).2 "web-1" opOk).1
        = Except.error (.cellNotFound "web-1"))) ∧
    (isCellUnallocatedErr (opOk allocatedCell) = false ∧
     ((Cells.get cacheA "web-1" opOk).1 = opOk allocatedCell ∧
      (Cells.get cacheA "web-1" opOk).2 = cacheA)) ∧
    (isCellUnallocatedErr (opMutUnalloc allocatedCell).1 = true ∧
     ((Cells.get_mut cacheA "web-1" opMutUnalloc).1
        = (opMutUnalloc allocatedCell).1 ∧
      containsKey (Cells.get_mut cacheA "web-1" opMutUnalloc).2 "web-1"
        = false ∧
      (Cells.get (Cells.get_mut cacheA "web-1" opMutUnalloc).2 "web-1" opOk).1
        = Except.error (.cellNotFound "web-1"))) ∧
    (isCellUnallocatedErr (opMutOk allocatedCell).1 = false ∧
     ((Cells.get_mut cacheA "web-1" opMutOk).1 = (opMutOk allocatedCell).1 ∧
      containsKey (Cells.get_mut cacheA "web-1" opMutOk).2 "web-1" = true)) :=
  ⟨by decide,
   ⟨by decide,
    (claim2_unalloc_eviction cacheA "web-1" allocatedCell opUnalloc opOk
      opMutUnalloc (by decide)).1 (by decide)⟩,
   ⟨by decide,
    (claim2_unalloc_eviction cacheA "web-1" allocatedCell opOk opOk
      opMutOk (by decide)).2.1 (by decide)⟩,
   ⟨by decide,
    (claim2_unalloc_eviction cacheA "web-1" allocatedCell opUnalloc opOk
      opMutUnalloc (by decide)).2.2.1 (by decide)⟩,
   ⟨by decide,
    (claim2_unalloc_eviction cacheA "web-1" allocatedCell opOk opOk
      opMutOk (by decide)).2.2.2 (by decide)⟩⟩

/-- Counterexample to C5 as stated: on a cell that is still `Unallocated`
(e.g. after a failed backend allocation), the free transition fails with the
`CellUnallocated` signal; that error propagates, but contrary to the claim the
entry IS removed — `free` runs the transition through `get_mut`, whose
auto-eviction fires on exactly this error. -/
theorem claim5_counterexample :
    (Cell.free blueprintOk).1 = Except.error (.cellUnallocated "web-1") ∧
    (Cells.free cacheU "web-1").1
      = Except.error (.cellUnallocated "web-1") ∧
    containsKey (Cells.free cacheU "web-1").2 "web-1" = false := by decide

/-- C5 (amended): if the free transition fails with any error OTHER than the
unallocated signal — in particular the backend failure `FailedToFreeCell` —
that error propagates and the entry is not removed; a transition failing with
the `CellUnallocated` signal also propagates, but `get_mut`'s auto-eviction
removes the entry. -/
theorem claim5_free_failure_keeps_entry (cache : Cache) (n : CellName)
    (cell : Cell) (h : lookupCell cache n = some cell)
    (hs : cell.state = CellState.allocated)
    (hf : cell.freeSucceeds = false) :
    (Cells.free cache n).1
      = Except.error (.failedToFreeCell cell.cell_name) ∧
    containsKey (Cells.free cache n).2 n = true := by
  have hcell : Cell.free cell
      = (Except.error (.failedToFreeCell cell.cell_name), cell) := by
    simp [Cell.free, hs, hf]
  have hm : get_mutFn cache n (fun cell => Cell.free cell)
      = (Except.error (.failedToFreeCell cell.cell_name),
         updateKey cache n cell) := by
    simp [get_mutFn, h, hcell, isCellUnallocatedErr]
  refine ⟨?_, ?_⟩
  · simp [Cells.free, hm]
  · simp only [Cells.free, hm]
    rw [containsKey_updateKey]
    simp [containsKey, h]

/-- Witness for the amended C5: freeing the cell whose backend release fails
propagates `FailedToFreeCell` and keeps the entry. -/
theorem claim5_free_failure_keeps_entry_witness :
    lookupCell cacheStuck "web-1" = some stuckCell ∧
    stuckCell.state = CellState.allocated ∧
    stuckCell.freeSucceeds = false ∧
    ((Cells.free cacheStuck "web-1").1
       = Except.error (.failedToFreeCell "web-1") ∧
     containsKey (Cells.free cacheStuck "web-1").2 "web-1" = true) :=
  ⟨by decide, by decide, by decide,
   claim5_free_failure_keeps_entry cacheStuck "web-1" stuckCell
     (by decide) (by decide) (by decide)⟩

/-- Counterexample to C6 as stated: allocating a fresh name with a blueprint
whose backend creation fails.  The cell's allocate transition fails with
`FailedToAllocateCell`, yet `Cells::allocate` returns success — the call site
`cell.allocate();` discards the transition's result, so the failure is NOT
surfaced as the returned error (the entry does still stand, in the
unallocated state). -/
theorem claim6_counterexample :
    (Cell.allocate blueprintBadAlloc).1
      = Except.error (.failedToAllocateCell "web-1") ∧
    (Cells.allocate ([] : Cache) "web-1" blueprintBadAlloc).1
      = Except.ok () ∧
    lookupCell (Cells.allocate ([] : Cache) "web-1" blueprintBadAlloc).2
        "web-1" = some blueprintBadAlloc := by decide

/-- C6 (amended): on a fresh name the entry is inserted and the cell's
allocate transition is invoked, and the insertion stands with no rollback —
but the transition's result is discarded, so `allocate` returns success
regardless of whether the transition failed. -/
theorem claim6_allocate_no_rollback (cache : Cache) (n : CellName) (b : Cell)
    (h : containsKey cache n = false) :
    (Cells.allocate cache n b).1 = Except.ok () ∧
    lookupCell (Cells.allocate cache n b).2 n = some ((Cell.allocate b).2) ∧
    countKey (Cells.allocate cache n b).2 n = 1 := by
  rw [allocate_shape_new cache n b h]
  exact ⟨rfl, lookupCell_insertNew_self cache n _ h,
    countKey_insertNew_self cache n _ h⟩

/-- Witness for the amended C6: the failing blueprint is inserted, stays in
the map in its unallocated state, and `allocate` still reports success. -/
theorem claim6_allocate_no_rollback_witness :
    containsKey ([] : Cache) "web-1" = false ∧
    ((Cells.allocate ([] : Cache) "web-1" blueprintBadAlloc).1
       = Except.ok () ∧
     lookupCell (Cells.allocate ([] : Cache) "web-1" blueprintBadAlloc).2
         "web-1" = some ((Cell.allocate blueprintBadAlloc).2) ∧
     countKey (Cells.allocate ([] : Cache) "web-1" blueprintBadAlloc).2
         "web-1" = 1) :=
  ⟨by decide,
   claim6_allocate_no_rollback ([] : Cache) "web-1" blueprintBadAlloc
     (by decide)⟩

/-- Counterexample to C7 as stated: `allocate_then` on a fresh name with an
operation reporting the `CellUnallocated` signal returns that error, yet the
freshly inserted entry is STILL in the map — `allocate_then` has no eviction
logic, unlike `get`/`get_mut`. -/
theorem claim7_counterexample :
    (Cells.allocate_then ([] : Cache) "web-1" blueprintOk opUnalloc).1
      = Except.error (.cellUnallocated "web-1") ∧
    containsKey
        (Cells.allocate_then ([] : Cache) "web-1" blueprintOk opUnalloc).2
        "web-1" = true := by decide

/-- C7 (amended): on a fresh name `allocate_then` returns the operation's
result unchanged and never evicts: the freshly inserted entry remains in the
map even when the operation's result is the `CellUnallocated`-class error. -/
theorem claim7_allocate_then_no_eviction {R : Type} (cache : Cache)
    (n : CellName) (b : Cell) (f : Cell → Result R)
    (h : containsKey cache n = false) :
    (Cells.allocate_then cache n b f).1 = f ((Cell.allocate b).2) ∧
    containsKey (Cells.allocate_then cache n b f).2 n = true ∧
    (Cells.allocate_then cache n b f).2 = (Cells.allocate cache n b).2 := by
  have hshape : Cells.allocate_then cache n b f
      = (f ((Cell.allocate b).2), insertNew cache n ((Cell.allocate b).2)) := by
    simp [Cells.allocate_then, allocateFn, h]
  rw [hshape, allocate_shape_new cache n b h]
  exact ⟨rfl, containsKey_insertNew_self cache n _ h, rfl⟩

/-- Witness for the amended C7: the unallocated-signal operation's error is
returned and the entry remains. -/
theorem claim7_allocate_then_no_eviction_witness :
    containsKey ([] : Cache) "web-1" = false ∧
    ((Cells.allocate_then ([] : Cache) "web-1" blueprintOk opUnalloc).1
       = opUnalloc ((Cell.allocate blueprintOk).2) ∧
     containsKey
         (Cells.allocate_then ([] : Cache) "web-1" blueprintOk opUnalloc).2
         "web-1" = true ∧
     (Cells.allocate_then ([] : Cache) "web-1" blueprintOk opUnalloc).2
       = (Cells.allocate ([] : Cache) "web-1" blueprintOk).2) :=
  ⟨by decide,
   claim7_allocate_then_no_eviction ([] : Cache) "web-1" blueprintOk opUnalloc
     (by decide)⟩

/-- C8: `allocate_then(n, b, op)` fails with `CellExists` exactly when
`allocate(n, b)` would — on a present name, both return that error and leave
the map unchanged — and otherwise `allocate(n, b)` succeeds, `allocate_then`
performs the identical insertion and cell allocate transition, and returns
the result of applying `op` to the freshly inserted cell. -/
theorem claim8_allocate_then_refinement {R : Type} (cache : Cache)
    (n : CellName) (b : Cell) (f : Cell → Result R) :
    (containsKey cache n = true →
      Cells.allocate_then cache n b f = (Except.error (.cellExists n), cache) ∧
      Cells.allocate cache n b = (Except.error (.cellExists n), cache)) ∧
    (containsKey cache n = false →
      (Cells.allocate cache n b).1 = Except.ok () ∧
      (Cells.allocate_then cache n b f).2 = (Cells.allocate cache n b).2 ∧
      (Cells.allocate_then cache n b f).1 = f ((Cell.allocate b).2)) := by
  constructor
  · intro h
    exact ⟨by simp [Cells.allocate_then, allocateFn, h],
      allocate_shape_dup cache n b h⟩
  · intro h
    have hshape : Cells.allocate_then cache n b f
        = (f ((Cell.allocate b).2),
           insertNew cache n ((Cell.allocate b).2)) := by
      simp [Cells.allocate_then, allocateFn, h]
    rw [hshape, allocate_shape_new cache n b h]
    exact ⟨rfl, rfl, rfl⟩

/-- Witness for C8: the duplicate case on the one-entry registry and the
fresh case on the empty registry. -/
theorem claim8_allocate_then_refinement_witness :
    (containsKey cacheA "web-1" = true ∧
      (Cells.allocate_then cacheA "web-1" blueprintOk opOk
         = (Except.error (.cellExists "web-1"), cacheA) ∧
       Cells.allocate cacheA "web-1" blueprintOk
         = (Except.error (.cellExists "web-1"), cacheA))) ∧
    (containsKey ([] : Cache) "web-1" = false ∧
      ((Cells.allocate ([] : Cache) "web-1" blueprintOk).1 = Except.ok () ∧
       (Cells.allocate_then ([] : Cache) "web-1" blueprintOk opOk).2
         = (Cells.allocate ([] : Cache) "web-1" blueprintOk).2 ∧
       (Cells.allocate_then ([] : Cache) "web-1" blueprintOk opOk).1
         = opOk ((Cell.allocate blueprintOk).2))) :=
  ⟨⟨by decide,
    (claim8_allocate_then_refinement cacheA "web-1" blueprintOk opOk).1
      (by decide)⟩,
   ⟨by decide,
    (claim8_allocate_then_refinement ([] : Cache) "web-1" blueprintOk opOk).2
      (by decide)⟩⟩

/-- C10: under the registry's single lock, the two critical sections of
concurrent `allocate(n, b1)` and `allocate(n, b2)` are serialized, so every
execution is one of the two orders; in each, exactly one caller succeeds, the
other receives `CellExists`, and the final map holds exactly one entry for
`n`. -/
theorem claim10_concurrent_allocate (sched : Schedule) (cache : Cache)
    (n : CellName) (b1 b2 : Cell) (h : containsKey cache n = false) :
    (((twoAllocates sched cache n b1 b2).1 = Except.ok () ∧
      (twoAllocates sched cache n b1 b2).2.1
        = Except.error (.cellExists n)) ∨
     ((twoAllocates sched cache n b1 b2).1 = Except.error (.cellExists n) ∧
      (twoAllocates sched cache n b1 b2).2.1 = Except.ok ())) ∧
    countKey (twoAllocates sched cache n b1 b2).2.2 n = 1 := by
  cases sched with
  | firstSecond =>
      have h1 := allocate_shape_new cache n b1 h
      have h2 := allocate_shape_dup (insertNew cache n ((Cell.allocate b1).2))
        n b2 (containsKey_insertNew_self cache n _ h)
      constructor
      · left
        constructor <;> simp [twoAllocates, h1, h2]
      · simp only [twoAllocates, h1, h2]
        exact countKey_insertNew_self cache n _ h
  | secondFirst =>
      have h1 := allocate_shape_new cache n b2 h
      have h2 := allocate_shape_dup (insertNew cache n ((Cell.allocate b2).2))
        n b1 (containsKey_insertNew_self cache n _ h)
      constructor
      · right
        constructor <;> simp [twoAllocates, h1, h2]
      · simp only [twoAllocates, h1, h2]
        exact countKey_insertNew_self cache n _ h

/-- Witness for C10: both serialized orders of two allocations of `web-1`
against the empty registry. -/
theorem claim10_concurrent_allocate_witness :
    containsKey ([] : Cache) "web-1" = false ∧
    ((((twoAllocates Schedule.firstSecond ([] : Cache) "web-1" blueprintOk
          blueprintBadAlloc).1 = Except.ok () ∧
       (twoAllocates Schedule.firstSecond ([] : Cache) "web-1" blueprintOk
          blueprintBadAlloc).2.1 = Except.error (.cellExists "web-1")) ∨
      ((twoAllocates Schedule.firstSecond ([] : Cache) "web-1" blueprintOk
          blueprintBadAlloc).1 = Except.error (.cellExists "web-1") ∧
       (twoAllocates Schedule.firstSecond ([] : Cache) "web-1" blueprintOk
          blueprintBadAlloc).2.1 = Except.ok ())) ∧
     countKey (twoAllocates Schedule.firstSecond ([] : Cache) "web-1"
        blueprintOk blueprintBadAlloc).2.2 "web-1" = 1) ∧
    ((((twoAllocates Schedule.secondFirst ([] : Cache) "web-1" blueprintOk
          blueprintBadAlloc).1 = Except.ok () ∧
       (twoAllocates Schedule.secondFirst ([] : Cache) "web-1" blueprintOk
          blueprintBadAlloc).2.1 = Except.error (.cellExists "web-1")) ∨
      ((twoAllocates Schedule.secondFirst ([] : Cache) "web-1" blueprintOk
          blueprintBadAlloc).1 = Except.error (.cellExists "web-1") ∧
       (twoAllocates Schedule.secondFirst ([] : Cache) "web-1" blueprintOk
          blueprintBadAlloc).2.1 = Except.ok ())) ∧
     countKey (twoAllocates Schedule.secondFirst ([] : Cache) "web-1"
        blueprintOk blueprintBadAlloc).2.2 "web-1" = 1) :=
  ⟨by decide,
   claim10_concurrent_allocate Schedule.firstSecond ([] : Cache) "web-1"
     blueprintOk blueprintBadAlloc (by decide),
   claim10_concurrent_allocate Schedule.secondFirst ([] : Cache) "web-1"
     blueprintOk blueprintBadAlloc (by decide)⟩
